import Mathlib

/-!
Shallow embedding of the crypto trading bot's analysis-and-signal pipeline
(`src/market_analyzer.py` and `src/signal_generator.py`), with theorems
checking the natural-language specification against it.

Prices, indicator values and scores are modelled as rationals (the Python
code computes with floats; all the decision logic compared here is exact
arithmetic on literals).  Outputs of the external `talib` indicator
primitives are supplied as opaque parameters, as the specification places
the indicator library out of scope.  Wall-clock time is passed explicitly
where the code reads it.
-/

namespace CryptoBot

/-! ## Label types -/

inductive Direction
  | long
  | short
  | neutral
  deriving DecidableEq, Repr

inductive TrendDir
  | uptrend
  | downtrend
  | sideways
  deriving DecidableEq, Repr

inductive StructLabel
  | bullish
  | bearish
  | neutral
  deriving DecidableEq, Repr

inductive SentLabel
  | bullish
  | bearish
  | neutral
  deriving DecidableEq, Repr

inductive SentState
  | overbought
  | oversold
  | normal
  deriving DecidableEq, Repr

inductive FundingImpact
  | long_pay
  | short_pay
  | neutral
  deriving DecidableEq, Repr

inductive VolState
  | high
  | normal
  | low
  deriving DecidableEq, Repr

/-! ## Indicator set

The Python code stores indicators in a dict.  The `ma_p` / `ema_p` families
are kept as association lists keyed by period (in insertion order); the
remaining keys are `Option` fields, `none` meaning the key is absent. -/

structure IndicatorSet where
  ma : List (Nat × ℚ) := []
  ema : List (Nat × ℚ) := []
  rsi : Option ℚ := none
  macd : Option ℚ := none
  macd_signal : Option ℚ := none
  macd_hist : Option ℚ := none
  k : Option ℚ := none
  d : Option ℚ := none
  j : Option ℚ := none
  bb_upper : Option ℚ := none
  bb_middle : Option ℚ := none
  bb_lower : Option ℚ := none
  bb_width : Option ℚ := none
  atr : Option ℚ := none
  atr_percent : Option ℚ := none
  sar : Option ℚ := none
  cci : Option ℚ := none
  obv : Option ℚ := none
  obv_change : Option ℚ := none
  deriving DecidableEq, Repr

/-! ## Result records of the four analyzers -/

structure StructureResult where
  structure_label : StructLabel := .neutral
  strength : ℚ := 0
  description : String := ""
  deriving DecidableEq, Repr

structure TrendResult where
  direction : TrendDir := .sideways
  strength : ℚ := 0
  description : String := ""
  deriving DecidableEq, Repr

structure SentimentInfo where
  overall : SentLabel := .neutral
  long_short_ratio : ℚ := 1
  state : SentState := .normal
  funding_rate_impact : FundingImpact := .neutral
  deriving DecidableEq, Repr

/-! ## Signal generator parameters (`SignalGenerator.params`) -/

structure Weights where
  trend : ℚ := 0.3
  oscillators : ℚ := 0.3
  volume : ℚ := 0.2
  sentiment : ℚ := 0.2
  deriving DecidableEq, Repr

structure Thresholds where
  strong_buy : ℚ := 80
  buy : ℚ := 60
  neutral : ℚ := 40
  sell : ℚ := 20
  strong_sell : ℚ := 0
  deriving DecidableEq, Repr

structure GenParams where
  weights : Weights := {}
  thresholds : Thresholds := {}
  deriving DecidableEq, Repr

/-- The fields of the analysis-result dict that `SignalGenerator` reads.
`support` / `resistance` are the level lists, `volatility_current` the
`volatility['current']` entry, `last_price` is `None`-able. -/
structure AnalysisResult where
  symbol : String := ""
  timeframe : String := ""
  indicators : IndicatorSet := {}
  support : List ℚ := []
  resistance : List ℚ := []
  market_structure : StructureResult := {}
  sentiment : SentimentInfo := {}
  trend : TrendResult := {}
  volatility_current : ℚ := 0
  last_price : Option ℚ := none
  deriving DecidableEq, Repr

/-! ## `SignalGenerator._calculate_score` -/

/-- Trend contribution: uptrend gives `min(100, 50 + strength)`, downtrend
`max(0, 50 - strength)`, sideways 50. -/
def trendScore (t : TrendResult) : ℚ :=
  match t.direction with
  | .uptrend => min 100 (50 + t.strength)
  | .downtrend => max 0 (50 - t.strength)
  | .sideways => 50

/-- RSI step of the oscillator sub-score (0 when the key is absent). -/
def rsiAdj (ind : IndicatorSet) : ℚ :=
  match ind.rsi with
  | none => 0
  | some rsi =>
    if rsi > 70 then 20
    else if rsi > 60 then 10
    else if rsi < 30 then -20
    else if rsi < 40 then -10
    else 0

/-- MACD step of the oscillator sub-score (0 unless all three MACD keys
are present). -/
def macdAdj (ind : IndicatorSet) : ℚ :=
  match ind.macd, ind.macd_signal, ind.macd_hist with
  | some m, some s, some h =>
    if m > s ∧ h > 0 then 15
    else if m > s ∧ h < 0 then 5
    else if m < s ∧ h < 0 then -15
    else if m < s ∧ h > 0 then -5
    else 0
  | _, _, _ => 0

/-- Oscillator contribution: 50, stepped by the RSI bucket and by the
MACD/signal/histogram relation, clamped to [0,100]. -/
def oscillatorScore (ind : IndicatorSet) : ℚ :=
  max 0 (min 100 (50 + rsiAdj ind + macdAdj ind))

/-- Sentiment base score from the overall label. -/
def sentimentBase (s : SentimentInfo) : ℚ :=
  match s.overall with
  | .bullish => 75
  | .bearish => 25
  | .neutral => 50

/-- Sentiment score after the funding-rate-impact adjustment. -/
def sentimentFunding (s : SentimentInfo) : ℚ :=
  match s.funding_rate_impact with
  | .long_pay => sentimentBase s - 10
  | .short_pay => sentimentBase s + 10
  | .neutral => sentimentBase s

/-- Sentiment score after the overbought/oversold adjustment. -/
def sentimentState (s : SentimentInfo) : ℚ :=
  match s.state with
  | .overbought => max 30 (sentimentFunding s - 20)
  | .oversold => min 70 (sentimentFunding s + 20)
  | .normal => sentimentFunding s

/-- Sentiment contribution: 75/25/50 by overall label, ±10 by funding-rate
impact, floor 30 when overbought / cap 70 when oversold, clamped to
[0,100]. -/
def sentimentScore (s : SentimentInfo) : ℚ :=
  max 0 (min 100 (sentimentState s))

/-- `SignalGenerator._calculate_score`: weighted sum of the four
sub-scores; the volume sub-score is the constant 50.  Note the weighted
sum itself is not clamped. -/
def calculate_score (w : Weights) (a : AnalysisResult) : ℚ :=
  trendScore a.trend * w.trend + oscillatorScore a.indicators * w.oscillators +
    50 * w.volume + sentimentScore a.sentiment * w.sentiment

/-! ## `SignalGenerator._determine_direction` and price levels -/

def determine_direction (t : Thresholds) (score : ℚ) : Direction :=
  if score ≥ t.buy then .long
  else if score ≤ t.sell then .short
  else .neutral

/-- `SignalGenerator._determine_stop_loss`.  `atr_ind` is the `atr` entry
of the indicator dict (`.get('atr', 0)`, with 0 / absent replaced by 1% of
entry). -/
def determine_stop_loss (direction : Direction) (entry_price : ℚ)
    (supports resistances : List ℚ) (atr_ind : Option ℚ) : ℚ :=
  let atr0 : ℚ := atr_ind.getD 0
  let atr : ℚ := if atr0 = 0 then entry_price * 0.01 else atr0
  match direction with
  | .long =>
    if supports ≠ [] then
      let nearest_support :=
        ((supports.filter fun s => s < entry_price).max?).getD (entry_price * 0.98)
      if (entry_price - nearest_support) / entry_price < 0.01 then entry_price * 0.98
      else nearest_support
    else entry_price - 2 * atr
  | .short =>
    if resistances ≠ [] then
      let nearest_resistance :=
        ((resistances.filter fun r => r > entry_price).min?).getD (entry_price * 1.02)
      if (nearest_resistance - entry_price) / entry_price < 0.01 then entry_price * 1.02
      else nearest_resistance
    else entry_price + 2 * atr
  | .neutral => entry_price

/-- `SignalGenerator._determine_target_price` (risk-reward ratio 2, capped
by the first obstructing level). -/
def determine_target_price (direction : Direction) (entry_price stop_loss : ℚ)
    (supports resistances : List ℚ) : ℚ :=
  let stop_distance := |entry_price - stop_loss|
  let risk_reward : ℚ := 2
  match direction with
  | .long =>
    let target_by_risk := entry_price + risk_reward * stop_distance
    if resistances ≠ [] then
      let next_resistance :=
        ((resistances.filter fun r => r > entry_price).min?).getD target_by_risk
      min target_by_risk next_resistance
    else target_by_risk
  | .short =>
    let target_by_risk := entry_price - risk_reward * stop_distance
    if supports ≠ [] then
      let next_support :=
        ((supports.filter fun s => s < entry_price).max?).getD target_by_risk
      max target_by_risk next_support
    else target_by_risk
  | .neutral => entry_price

/-! ## `SignalGenerator._calculate_risk_parameters` -/

structure RiskParams where
  risk_percent : ℚ
  reward_percent : ℚ
  risk_reward_ratio : ℚ
  suggested_leverage : ℤ
  position_size_percent : ℚ
  volatility : ℚ
  deriving DecidableEq, Repr

/-- `SignalGenerator._calculate_risk_parameters`.  The `direction`
parameter is unused on the success path, as in the source.  Python's
`int()` truncates toward zero; `adjusted_leverage` is always positive
here, so truncation is the floor. -/
def calculate_risk_parameters (entry_price stop_loss target_price : ℚ)
    (direction : Direction) (volatility_current : ℚ) : RiskParams :=
  let risk_percent := |entry_price - stop_loss| / entry_price
  let reward_percent := |target_price - entry_price| / entry_price
  let risk_reward_ratio := if risk_percent > 0 then reward_percent / risk_percent else 0
  let current_volatility := if volatility_current < 0.01 then 0.01 else volatility_current
  let base_leverage : ℚ :=
    if current_volatility < 0.02 then 10
    else if current_volatility < 0.05 then 5
    else 3
  let adjusted_leverage :=
    if risk_percent > 0 then min base_leverage (0.5 / risk_percent) else base_leverage
  let suggested_leverage : ℤ := min ⌊adjusted_leverage⌋ 20
  let position_size_percent := min (0.1 * risk_reward_ratio) 0.3
  { risk_percent := risk_percent * 100
    reward_percent := reward_percent * 100
    risk_reward_ratio := risk_reward_ratio
    suggested_leverage := suggested_leverage
    position_size_percent := position_size_percent * 100
    volatility := current_volatility * 100 }

/-! ## `SignalGenerator._evaluate_signal_strength` -/

structure SignalStrength where
  stars : Nat
  reliability : String
  timing : String
  deriving DecidableEq, Repr

def evaluate_signal_strength (t : Thresholds) (score : ℚ) : SignalStrength :=
  let stars : Nat :=
    if score ≥ t.strong_buy ∨ score ≤ t.strong_sell then 5
    else if score ≥ t.buy ∨ score ≤ t.sell then 4
    else if score ≥ 55 ∨ score ≤ 45 then 3
    else if score ≥ 52 ∨ score ≤ 48 then 2
    else 1
  let reliability : String :=
    if stars ≥ 4 then "高度可靠"
    else if stars ≥ 3 then "较为可靠"
    else if stars ≥ 2 then "一般可靠"
    else "参考为主"
  let timing : String :=
    if stars ≥ 4 then "建议进场"
    else if stars ≥ 3 then "可以考虑"
    else if stars ≥ 2 then "等待确认"
    else "暂不操作"
  { stars := stars, reliability := reliability, timing := timing }

/-! ## `SignalGenerator.generate_signal` -/

/-- The time-independent fields of a signal. -/
structure SignalCore where
  symbol : String
  timeframe : String
  direction : Direction
  score : ℚ
  entry_price : ℚ
  stop_loss : ℚ
  target_price : ℚ
  risk_params : RiskParams
  signal_strength : SignalStrength
  deriving DecidableEq, Repr

/-- A full signal: the core fields plus the `pd.Timestamp.now()` field. -/
structure Signal extends SignalCore where
  timestamp : ℤ
  deriving DecidableEq, Repr

/-- The deterministic part of `generate_signal`: everything except the
timestamp.  Returns `none` when the current price is absent. -/
def signalCore (p : GenParams) (a : AnalysisResult) : Option SignalCore :=
  match a.last_price with
  | none => none
  | some current_price =>
    let score := calculate_score p.weights a
    let direction := determine_direction p.thresholds score
    let entry_price := current_price
    let stop_loss :=
      determine_stop_loss direction entry_price a.support a.resistance a.indicators.atr
    let target_price :=
      determine_target_price direction entry_price stop_loss a.support a.resistance
    let risk_params :=
      calculate_risk_parameters entry_price stop_loss target_price direction
        a.volatility_current
    let signal_strength := evaluate_signal_strength p.thresholds score
    some
      { symbol := a.symbol
        timeframe := a.timeframe
        direction := direction
        score := score
        entry_price := entry_price
        stop_loss := stop_loss
        target_price := target_price
        risk_params := risk_params
        signal_strength := signal_strength }

/-- `SignalGenerator.generate_signal`: the pipeline from an analysis
result to a signal; `now` is the wall-clock instant the code stamps into
the signal via `pd.Timestamp.now()`. -/
def generate_signal (p : GenParams) (a : AnalysisResult) (now : ℤ) : Option Signal :=
  (signalCore p a).map fun c => { toSignalCore := c, timestamp := now }

/-! ## `MarketAnalyzer._calculate_indicators` -/

/-- The analyzer's parameters (`MarketAnalyzer.params`), with the defaults
the source substitutes via `.get`. -/
structure AnalyzerParams where
  ma_periods : List Nat := [5, 10, 20, 50, 100, 200]
  rsi_period : Nat := 14
  macd_fast : Nat := 12
  macd_slow : Nat := 26
  macd_signal_period : Nat := 9
  kdj_k : Nat := 9
  kdj_d : Nat := 3
  kdj_j : Nat := 3
  bb_period : Nat := 20
  bb_std : ℚ := 2

/-- Last-bar outputs of the external `talib` primitives, supplied as
opaque values (the indicator library is out of scope per the spec).
`obv_prev10` is `obv[-10]`. -/
structure TalibOutputs where
  sma : Nat → ℚ := fun _ => 0
  ema : Nat → ℚ := fun _ => 0
  rsi : ℚ := 0
  macd : ℚ := 0
  macd_signal : ℚ := 0
  macd_hist : ℚ := 0
  stoch_k : ℚ := 0
  stoch_d : ℚ := 0
  bb_upper : ℚ := 0
  bb_middle : ℚ := 0
  bb_lower : ℚ := 0
  atr : ℚ := 0
  sar : ℚ := 0
  cci : ℚ := 0
  obv_last : ℚ := 0
  obv_prev10 : ℚ := 0

/-- `MarketAnalyzer._calculate_indicators`.  `n` is `len(df)`,
`close_last` is `close[-1]`.  Mirrors the guards that decide which keys
are present: the whole dict stays empty below 50 bars, then each family
checks its own window. -/
def calculate_indicators (p : AnalyzerParams) (n : Nat) (close_last : ℚ)
    (ext : TalibOutputs) : IndicatorSet :=
  if n < 50 then {}
  else
    { ma := p.ma_periods.filterMap fun per =>
        if per ≤ n then some (per, ext.sma per) else none
      ema := p.ma_periods.filterMap fun per =>
        if per ≤ n then some (per, ext.ema per) else none
      rsi := if p.rsi_period ≤ n then some ext.rsi else none
      macd := if p.macd_slow + p.macd_signal_period ≤ n then some ext.macd else none
      macd_signal :=
        if p.macd_slow + p.macd_signal_period ≤ n then some ext.macd_signal else none
      macd_hist :=
        if p.macd_slow + p.macd_signal_period ≤ n then some ext.macd_hist else none
      k := if p.kdj_k + p.kdj_d ≤ n then some ext.stoch_k else none
      d := if p.kdj_k + p.kdj_d ≤ n then some ext.stoch_d else none
      j := if p.kdj_k + p.kdj_d ≤ n then some (3 * ext.stoch_k - 2 * ext.stoch_d) else none
      bb_upper := if p.bb_period ≤ n then some ext.bb_upper else none
      bb_middle := if p.bb_period ≤ n then some ext.bb_middle else none
      bb_lower := if p.bb_period ≤ n then some ext.bb_lower else none
      bb_width :=
        if p.bb_period ≤ n then some ((ext.bb_upper - ext.bb_lower) / ext.bb_middle) else none
      atr := if 14 ≤ n then some ext.atr else none
      atr_percent := if 14 ≤ n then some (ext.atr / close_last) else none
      sar := if 15 ≤ n then some ext.sar else none
      cci := if 14 ≤ n then some ext.cci else none
      obv := if 2 ≤ n then some ext.obv_last else none
      obv_change :=
        if 2 ≤ n then
          some (if 0 < |ext.obv_prev10| then
            (ext.obv_last - ext.obv_prev10) / |ext.obv_prev10| else 0)
        else none }

/-! ## `MarketAnalyzer._identify_support_resistance` -/

structure LevelSet where
  support : List ℚ := []
  resistance : List ℚ := []
  deriving DecidableEq, Repr

/-- Local highs: for `i` in `range(2, n-2)`, bar `i` whose high exceeds
the two highs on each side, recorded as `(index, price)`.  Indices are
rationals because merging averages them. -/
def local_highs (high : List ℚ) (n : Nat) : List (ℚ × ℚ) :=
  (List.range n).filterMap fun i =>
    if 2 ≤ i ∧ i + 2 < n ∧
        high.getD (i - 1) 0 < high.getD i 0 ∧ high.getD (i - 2) 0 < high.getD i 0 ∧
        high.getD (i + 1) 0 < high.getD i 0 ∧ high.getD (i + 2) 0 < high.getD i 0 then
      some ((i : ℚ), high.getD i 0)
    else none

/-- Local lows, symmetric to `local_highs`. -/
def local_lows (low : List ℚ) (n : Nat) : List (ℚ × ℚ) :=
  (List.range n).filterMap fun i =>
    if 2 ≤ i ∧ i + 2 < n ∧
        low.getD i 0 < low.getD (i - 1) 0 ∧ low.getD i 0 < low.getD (i - 2) 0 ∧
        low.getD i 0 < low.getD (i + 1) 0 ∧ low.getD i 0 < low.getD (i + 2) 0 then
      some ((i : ℚ), low.getD i 0)
    else none

/-- One pass of `merge_levels` over the price-sorted list: points within
`threshold` relative price distance of the running cluster are averaged
into it. -/
def mergeLoop (threshold : ℚ) : (ℚ × ℚ) → List (ℚ × ℚ) → List (ℚ × ℚ)
  | current, [] => [current]
  | current, p :: rest =>
    if |p.2 - current.2| / current.2 < threshold then
      mergeLoop threshold ((current.1 + p.1) / 2, (current.2 + p.2) / 2) rest
    else current :: mergeLoop threshold p rest

/-- `merge_levels` from the source: sort by price, then single-linkage
merge of points closer than the 0.5% threshold. -/
def merge_levels (levels : List (ℚ × ℚ)) (threshold : ℚ) : List (ℚ × ℚ) :=
  match levels.insertionSort fun a b => a.2 ≤ b.2 with
  | [] => []
  | c :: rest => mergeLoop threshold c rest

/-- Merged local highs strictly above the current price, sorted by price
ascending (`highs_above` in the source). -/
def highs_above (high : List ℚ) (n : Nat) (current_price : ℚ) : List (ℚ × ℚ) :=
  ((merge_levels (local_highs high n) 0.005).filter fun pr =>
    pr.2 > current_price).insertionSort fun a b => a.2 ≤ b.2

/-- Merged local lows strictly below the current price, sorted by price
descending (`lows_below` in the source). -/
def lows_below (low : List ℚ) (n : Nat) (current_price : ℚ) : List (ℚ × ℚ) :=
  ((merge_levels (local_lows low n) 0.005).filter fun pr =>
    pr.2 < current_price).insertionSort fun a b => b.2 ≤ a.2

/-- Resistance levels derived from genuine local extrema: the `n_levels`
nearest merged highs above the current price. -/
def real_resistance (high : List ℚ) (n : Nat) (current_price : ℚ)
    (n_levels : Nat) : List ℚ :=
  ((highs_above high n current_price).take n_levels).map fun pr => pr.2

/-- Support levels derived from genuine local extrema. -/
def real_support (low : List ℚ) (n : Nat) (current_price : ℚ)
    (n_levels : Nat) : List ℚ :=
  ((lows_below low n current_price).take n_levels).map fun pr => pr.2

/-- Synthetic ATR-based resistance levels filling up to `cnt` missing
entries: `current · (1 + 0.5·(i+1)·atr/current)`. -/
def synth_resistance (current_price atr : ℚ) (cnt : Nat) : List ℚ :=
  (List.range cnt).map fun i =>
    current_price * (1 + 0.5 * ((i : ℚ) + 1) * atr / current_price)

/-- Synthetic ATR-based support levels. -/
def synth_support (current_price atr : ℚ) (cnt : Nat) : List ℚ :=
  (List.range cnt).map fun i =>
    current_price * (1 - 0.5 * ((i : ℚ) + 1) * atr / current_price)

/-- `MarketAnalyzer._identify_support_resistance` (`n_levels` is 2 at the
call site).  `atr` is the external 14-period ATR used for the synthetic
fallback levels.  Below 30 bars both lists stay empty; at the end the
resistance list is sorted ascending and the support list descending. -/
def identify_support_resistance (high low close : List ℚ) (atr : ℚ)
    (n_levels : Nat) : LevelSet :=
  if close.length < 30 then {}
  else
    { resistance :=
        (real_resistance high close.length ((close.getLast?).getD 0) n_levels ++
          synth_resistance ((close.getLast?).getD 0) atr
            (n_levels -
              (real_resistance high close.length ((close.getLast?).getD 0) n_levels).length)).insertionSort
          fun a b => a ≤ b
      support :=
        (real_support low close.length ((close.getLast?).getD 0) n_levels ++
          synth_support ((close.getLast?).getD 0) atr
            (n_levels -
              (real_support low close.length ((close.getLast?).getD 0) n_levels).length)).insertionSort
          fun a b => b ≤ a }

/-! ## `MarketAnalyzer._analyze_market_structure` -/

/-- `MarketAnalyzer._analyze_market_structure`.  `n` is `len(df)`,
`current_price` is `close[-1]`.  Below 20 bars it returns the neutral
default record. -/
def analyze_market_structure (n : Nat) (current_price : ℚ)
    (ind : IndicatorSet) : StructureResult :=
  if n < 20 then {}
  else
    let ma_total := ind.ma.length
    let ma_count_above := (ind.ma.filter fun pv => current_price > pv.2).length
    let ma_score : ℚ :=
      if 0 < ma_total then ((ma_count_above : ℚ) / (ma_total : ℚ)) * 100 else 0
    let rsi_score : ℚ :=
      match ind.rsi with
      | none => 0
      | some rsi =>
        if rsi > 70 then 90
        else if rsi > 60 then 70
        else if rsi > 50 then 60
        else if rsi > 40 then 40
        else if rsi > 30 then 30
        else 10
    let macd_score : ℚ :=
      match ind.macd, ind.macd_signal, ind.macd_hist with
      | some m, some s, some h =>
        if m > s ∧ h > 0 then 80
        else if m > s ∧ h < 0 then 60
        else if m < s ∧ h < 0 then 20
        else 40
      | _, _, _ => 50
    let bb_score : ℚ :=
      match ind.bb_upper, ind.bb_middle, ind.bb_lower with
      | some u, some mid, some lo =>
        if current_price > u then 90
        else if current_price > mid then 70
        else if current_price < lo then 10
        else if current_price < mid then 30
        else 50
      | _, _, _ => 50
    let strength := ma_score * 0.4 + rsi_score * 0.2 + macd_score * 0.2 + bb_score * 0.2
    if strength ≥ 70 then
      { structure_label := .bullish, strength := strength,
        description := "看涨结构，价格站在大多数均线上方" }
    else if strength ≤ 30 then
      { structure_label := .bearish, strength := strength,
        description := "看跌结构，价格站在大多数均线下方" }
    else
      { structure_label := .neutral, strength := strength,
        description := "中性结构，价格在均线附近波动" }

/-! ## `MarketAnalyzer._determine_trend` -/

/-- `MarketAnalyzer._determine_trend`.  `n` is `len(df)`, `current_price`
is `close[-1]`, `adx` the external 14-period ADX output.  The alignment
flags start true and the source clears `ma_aligned_up` when a
shorter-period MA value exceeds the next longer-period one (and only
checks at all when at least 3 MAs are available), so `ma_aligned_up`
holds iff the MA values are non-decreasing with period. -/
def determine_trend (n : Nat) (current_price : ℚ) (ind : IndicatorSet)
    (adx : ℚ) : TrendResult :=
  if n < 20 then {}
  else
    let ma_values := ([5, 10, 20, 50, 100].filterMap fun per =>
      (List.lookup per ind.ma).map fun v => (per, v)).insertionSort
        fun a b => a.1 ≤ b.1
    let adjacent := ma_values.zip ma_values.tail
    let ma_aligned_up : Bool :=
      if 3 ≤ ma_values.length then
        adjacent.all fun pr => decide (pr.1.2 ≤ pr.2.2)
      else true
    let ma_aligned_down : Bool :=
      if 3 ≤ ma_values.length then
        adjacent.all fun pr => decide (pr.2.2 ≤ pr.1.2)
      else true
    let above_ma50 : Bool :=
      match List.lookup 50 ind.ma with
      | some v => decide (current_price > v)
      | none => false
    let above_ma100 : Bool :=
      match List.lookup 100 ind.ma with
      | some v => decide (current_price > v)
      | none => false
    if ma_aligned_up && above_ma50 && above_ma100 then
      { direction := .uptrend, strength := min 100 (50 + adx / 2),
        description := if adx > 25 then "强劲上升趋势，均线多头排列"
          else "温和上升趋势，均线多头排列" }
    else if ma_aligned_down && !above_ma50 && !above_ma100 then
      { direction := .downtrend, strength := min 100 (50 + adx / 2),
        description := if adx > 25 then "强劲下降趋势，均线空头排列"
          else "温和下降趋势，均线空头排列" }
    else
      { direction := .sideways, strength := max 0 (adx - 15),
        description := "横盘整理，无明确趋势" }

/-! ## `MarketAnalyzer._analyze_volatility`

The annualization factor √365 is irrational, so the volatility numbers
live in `ℝ`; nothing downstream in the claims reads them numerically. -/

structure VolatilityResult where
  current : ℝ
  average : ℝ
  state : VolState
  description : String

noncomputable def listMean (xs : List ℝ) : ℝ := xs.sum / xs.length

/-- Sample standard deviation with one delta degree of freedom, as
`pandas.Series.std` (ddof = 1). -/
noncomputable def sampleStd (xs : List ℝ) : ℝ :=
  Real.sqrt (((xs.map fun x => (x - listMean xs) ^ 2).sum) / ((xs.length : ℝ) - 1))

/-- `pct_change().dropna()`: close-to-close simple returns. -/
def pctChanges (closes : List ℚ) : List ℚ :=
  (closes.zip closes.tail).map fun pr => (pr.2 - pr.1) / pr.1

/-- The complete rolling windows of width `w` (pandas emits NaN for the
incomplete head; `.mean()` skips those). -/
def rollingWindows (xs : List ℝ) (w : Nat) : List (List ℝ) :=
  (List.range (xs.length + 1 - w)).map fun i => (xs.drop i).take w

/-- `MarketAnalyzer._analyze_volatility`.  Below 20 bars it returns the
zero/normal default record.  When no rolling window is complete pandas
propagates NaN and both threshold comparisons are false, which the
`isEmpty` guard reproduces. -/
noncomputable def analyze_volatility (closes : List ℚ) : VolatilityResult :=
  if closes.length < 20 then ⟨0, 0, .normal, ""⟩
  else
    let returns : List ℝ := (pctChanges closes).map fun q => (q : ℝ)
    let current := sampleStd returns * Real.sqrt 365
    let windows := rollingWindows returns 20
    let average := listMean (windows.map sampleStd) * Real.sqrt 365
    let state : VolState :=
      if windows.isEmpty then .normal
      else if current > average * 1.5 then .high
      else if current < average * 0.5 then .low
      else .normal
    let description : String :=
      match state with
      | .high => "高波动性，市场剧烈震荡"
      | .low => "低波动性，市场平静"
      | .normal => "正常波动，市场稳定"
    ⟨current, average, state, description⟩

/-! ## Fixtures and auxiliary definitions used by the theorems -/

/-- The bullish-stacking order asserted by the spec for "aligned up":
each shorter-period MA value is ≥ the next longer-period one
(`ma_values` sorted by period ascending). -/
def specAlignedUp (ma_values : List (Nat × ℚ)) : Bool :=
  (ma_values.zip ma_values.tail).all fun pr => decide (pr.1.2 ≥ pr.2.2)

/-- A well-formed analysis result (bullish sentiment, uptrend, support
far below the price) on which the pipeline emits a long signal whose
suggested leverage is 0. -/
def cexAnalysis : AnalysisResult :=
  { symbol := "BTC/USDT"
    timeframe := "1h"
    support := [40]
    sentiment := { overall := .bullish }
    trend := { direction := .uptrend, strength := 50 }
    volatility_current := 0.005
    last_price := some 100 }

/-- An analysis result scoring bullish on every sub-score. -/
def bullAnalysis : AnalysisResult :=
  { indicators :=
      { rsi := some 75, macd := some 2, macd_signal := some 1, macd_hist := some 1 }
    sentiment := { overall := .bullish }
    trend := { direction := .uptrend, strength := 50 }
    last_price := some 100 }

/-- Indicator set with the moving averages in genuine bullish stacking
(shorter period above longer period). -/
def stackedBullInd : IndicatorSet :=
  { ma := [(5, 105), (10, 104), (20, 103), (50, 102), (100, 101)] }

/-- Indicator set with the moving averages in the reversed order (each
shorter-period MA below the longer-period one). -/
def stackedBearInd : IndicatorSet :=
  { ma := [(5, 101), (10, 102), (20, 103), (50, 104), (100, 105)] }

instance : IsTotal ℚ fun a b => b ≤ a := ⟨fun a b => le_total b a⟩

instance : IsTrans ℚ fun a b => b ≤ a := ⟨fun _ _ _ h1 h2 => le_trans h2 h1⟩

/-! ## Helper lemmas -/

theorem trendScore_bounds (t : TrendResult) (hs : 0 ≤ t.strength) :
    0 ≤ trendScore t ∧ trendScore t ≤ 100 := by
  unfold trendScore
  rcases t.direction with _ | _ | _
  · exact ⟨le_min (by norm_num) (by linarith), min_le_left _ _⟩
  · exact ⟨le_max_left _ _, max_le (by norm_num) (by linarith)⟩
  · norm_num

theorem oscillatorScore_bounds (ind : IndicatorSet) :
    0 ≤ oscillatorScore ind ∧ oscillatorScore ind ≤ 100 :=
  ⟨le_max_left _ _, max_le (by norm_num) (min_le_left _ _)⟩

theorem sentimentScore_bounds (s : SentimentInfo) :
    0 ≤ sentimentScore s ∧ sentimentScore s ≤ 100 :=
  ⟨le_max_left _ _, max_le (by norm_num) (min_le_left _ _)⟩

/-! ## Claim theorems -/

/-- C9: with the default thresholds, the star-rating evaluator maps the
boundary-table scores as stated: 85 to 5 stars, 65 to 4, 56 to 3, 53 to
2, 50 to 1, and the strong-buy boundary is exact (79.9 gives 4 stars,
fewer than 5, while 80 gives 5). -/
theorem evaluate_signal_strength_boundary_table :
    (evaluate_signal_strength {} 85).stars = 5 ∧
    (evaluate_signal_strength {} 65).stars = 4 ∧
    (evaluate_signal_strength {} 56).stars = 3 ∧
    (evaluate_signal_strength {} 53).stars = 2 ∧
    (evaluate_signal_strength {} 50).stars = 1 ∧
    (evaluate_signal_strength {} (799 / 10)).stars = 4 ∧
    (evaluate_signal_strength {} (799 / 10)).stars < 5 ∧
    (evaluate_signal_strength {} 80).stars = 5 := by
  norm_num [evaluate_signal_strength]

/-- C3: the code's trend determiner contradicts the spec's bullish
stacking.  With the MAs genuinely bullishly stacked (each shorter-period
MA ≥ the next longer one, as `specAlignedUp` certifies) and the price
above MA50 and MA100, the code classifies the series as sideways, not
uptrend; with the reversed (value-ascending-with-period) order it
classifies uptrend.  So the code's "aligned up" is the mirror of the
claimed comparison direction. -/
theorem determine_trend_misclassifies_bullish_stack :
    specAlignedUp [(5, 105), (10, 104), (20, 103), (50, 102), (100, 101)] = true ∧
    ((110 : ℚ) > 102 ∧ (110 : ℚ) > 101) ∧
    (determine_trend 30 110 stackedBullInd 30).direction = TrendDir.sideways ∧
    (determine_trend 30 110 stackedBearInd 30).direction = TrendDir.uptrend :=
  ⟨rfl, by norm_num, rfl, rfl⟩

/-- C1 counterexample: on a well-formed bullish analysis result with a
support at 40 and price 100, the generated long signal carries
`suggested_leverage = 0`, outside the claimed range [1,20]
(riskPercent is 0.6, so `int(min(10, 0.5/0.6)) = 0`). -/
theorem suggested_leverage_zero_cex :
    (generate_signal {} cexAnalysis 0).map
        (fun s => (s.risk_params.suggested_leverage, s.direction)) =
      some (0, Direction.long) ∧
    ¬ (1 : ℤ) ≤ 0 := by
  constructor
  · norm_num [generate_signal, signalCore, cexAnalysis, calculate_score, trendScore,
      oscillatorScore, rsiAdj, macdAdj, sentimentScore, sentimentBase, sentimentFunding,
      sentimentState, determine_direction, determine_stop_loss, determine_target_price,
      calculate_risk_parameters, evaluate_signal_strength, List.filter, List.max?_cons']
  · norm_num

/-- C2 counterexample: the same analysis input run at two different
wall-clock instants yields signals that are not bit-identical (the
timestamp field differs). -/
theorem generate_signal_timestamp_cex :
    generate_signal {} cexAnalysis 0 ≠ generate_signal {} cexAnalysis 1 := by
  intro h
  have h2 := congrArg (fun o => Option.map Signal.timestamp o) h
  simp [generate_signal, signalCore, cexAnalysis] at h2

/-- C2 (amended): the pipeline is deterministic in every field except the
timestamp: for any analysis input and any two generation instants, the
signals agree on all the other fields. -/
theorem generate_signal_deterministic_mod_timestamp (p : GenParams)
    (a : AnalysisResult) (t1 t2 : ℤ) :
    (generate_signal p a t1).map Signal.toSignalCore =
      (generate_signal p a t2).map Signal.toSignalCore := by
  unfold generate_signal
  cases signalCore p a <;> rfl

/-- C5 counterexample: the scorer accepts non-normalized weights and does
not clamp the weighted sum, so with all weights 1 a bullish analysis
result scores 310, outside [0,100]. -/
theorem calculate_score_unnormalized_cex :
    calculate_score ⟨1, 1, 1, 1⟩ bullAnalysis = 310 ∧
    ¬ calculate_score ⟨1, 1, 1, 1⟩ bullAnalysis ≤ 100 := by
  constructor <;>
    norm_num [calculate_score, trendScore, oscillatorScore, rsiAdj, macdAdj,
      sentimentScore, sentimentBase, sentimentFunding, sentimentState, bullAnalysis]

/-- C5 (amended): each of the four sub-scores lies in [0,100] (the trend
sub-score provided the trend strength is nonnegative, as the trend
analyzer guarantees), so for nonnegative weights the composite score
lies in [0, 100·(sum of the weights)]; with the default weights, whose
sum is 1, it lies in [0,100]. -/
theorem calculate_score_bounds (w : Weights) (a : AnalysisResult)
    (hw1 : 0 ≤ w.trend) (hw2 : 0 ≤ w.oscillators) (hw3 : 0 ≤ w.volume)
    (hw4 : 0 ≤ w.sentiment) (hs : 0 ≤ a.trend.strength) :
    0 ≤ calculate_score w a ∧
      calculate_score w a ≤
        100 * (w.trend + w.oscillators + w.volume + w.sentiment) := by
  obtain ⟨ht0, ht1⟩ := trendScore_bounds a.trend hs
  obtain ⟨ho0, ho1⟩ := oscillatorScore_bounds a.indicators
  obtain ⟨hn0, hn1⟩ := sentimentScore_bounds a.sentiment
  unfold calculate_score
  constructor
  · have h1 := mul_nonneg ht0 hw1
    have h2 := mul_nonneg ho0 hw2
    have h3 := mul_nonneg (by norm_num : (0 : ℚ) ≤ 50) hw3
    have h4 := mul_nonneg hn0 hw4
    linarith
  · have h1 := mul_le_mul_of_nonneg_right ht1 hw1
    have h2 := mul_le_mul_of_nonneg_right ho1 hw2
    have h3 := mul_le_mul_of_nonneg_right (by norm_num : (50 : ℚ) ≤ 100) hw3
    have h4 := mul_le_mul_of_nonneg_right hn1 hw4
    linarith

/-- C5 witness: the amended bound instantiated at the default weights and
a concrete bullish analysis result. -/
theorem calculate_score_bounds_witness :
    (0 : ℚ) ≤ 0.3 ∧ 0 ≤ bullAnalysis.trend.strength ∧
    (0 ≤ calculate_score {} bullAnalysis ∧
      calculate_score {} bullAnalysis ≤ 100 * (0.3 + 0.3 + 0.2 + 0.2)) :=
  ⟨by norm_num, by norm_num [bullAnalysis],
    calculate_score_bounds {} bullAnalysis (by norm_num) (by norm_num)
      (by norm_num) (by norm_num) (by norm_num [bullAnalysis])⟩

/-- C1 (amended): for a positive entry price the suggested leverage is an
integer in [0,20], and it is at least 1 whenever riskPercent is at most
0.5 — the truncation to integer yields 0 exactly when riskPercent
exceeds 0.5, which is the one way the claimed lower bound 1 fails. -/
theorem suggested_leverage_bounds (entry stop target : ℚ) (dir : Direction)
    (vol : ℚ) (h : 0 < entry) :
    0 ≤ (calculate_risk_parameters entry stop target dir vol).suggested_leverage ∧
    (calculate_risk_parameters entry stop target dir vol).suggested_leverage ≤ 20 ∧
    (|entry - stop| / entry ≤ 1 / 2 →
      1 ≤ (calculate_risk_parameters entry stop target dir vol).suggested_leverage) := by
  have hrisk : 0 ≤ |entry - stop| / entry := div_nonneg (abs_nonneg _) h.le
  unfold calculate_risk_parameters
  dsimp only
  refine ⟨?_, min_le_right _ _, ?_⟩
  · refine le_min (Int.floor_nonneg.mpr ?_) (by norm_num)
    split_ifs with h1 <;>
      first
        | exact le_min (by norm_num) (div_nonneg (by norm_num) hrisk)
        | norm_num
  · intro hhalf
    refine le_min (Int.le_floor.mpr ?_) (by norm_num)
    push_cast
    by_cases h1 : |entry - stop| / entry > 0
    · rw [if_pos h1]
      refine le_min ?_ ?_
      · split_ifs <;> norm_num
      · rw [le_div_iff₀ h1]
        linarith
    · rw [if_neg h1]
      split_ifs <;> norm_num

/-- C1 witness: the amended bounds at a concrete long signal with a 2%
stop. -/
theorem suggested_leverage_bounds_witness :
    (0 : ℚ) < 100 ∧ |(100 : ℚ) - 98| / 100 ≤ 1 / 2 ∧
    (0 ≤ (calculate_risk_parameters 100 98 104 .long 0.03).suggested_leverage ∧
      (calculate_risk_parameters 100 98 104 .long 0.03).suggested_leverage ≤ 20 ∧
      (|(100 : ℚ) - 98| / 100 ≤ 1 / 2 →
        1 ≤ (calculate_risk_parameters 100 98 104 .long 0.03).suggested_leverage)) :=
  ⟨by norm_num, by rw [show |(100 : ℚ) - 98| = 2 by norm_num]; norm_num,
    suggested_leverage_bounds 100 98 104 .long 0.03 (by norm_num)⟩

/-- C6: with a positive entry price (and the nonnegative external ATR),
the stop-loss is strictly below entry for long, strictly above for
short, and equal to entry for neutral, for any support/resistance
lists. -/
theorem determine_stop_loss_side (entry : ℚ) (supports resistances : List ℚ)
    (atr_ind : Option ℚ) (hentry : 0 < entry) (hatr : 0 ≤ atr_ind.getD 0) :
    determine_stop_loss .long entry supports resistances atr_ind < entry ∧
    entry < determine_stop_loss .short entry supports resistances atr_ind ∧
    determine_stop_loss .neutral entry supports resistances atr_ind = entry := by
  have hatrpos : 0 < (if atr_ind.getD 0 = 0 then entry * 0.01 else atr_ind.getD 0) := by
    by_cases ha : atr_ind.getD 0 = 0
    · rw [if_pos ha]; nlinarith
    · rw [if_neg ha]; exact hatr.lt_of_ne (Ne.symm ha)
  refine ⟨?_, ?_, rfl⟩
  · show (if supports ≠ [] then
        let nearest_support :=
          ((supports.filter fun s => s < entry).max?).getD (entry * 0.98)
        if (entry - nearest_support) / entry < 0.01 then entry * 0.98
        else nearest_support
      else entry - 2 * (if atr_ind.getD 0 = 0 then entry * 0.01 else atr_ind.getD 0)) < entry
    by_cases hsup : supports = []
    · rw [if_neg (by simpa using hsup)]
      linarith
    · rw [if_pos hsup]
      rcases hm : (supports.filter fun s => s < entry).max? with _ | m
      · dsimp only
        simp only [Option.getD_none]
        split_ifs <;> nlinarith
      · dsimp only
        simp only [Option.getD_some]
        have hmem : m ∈ supports.filter fun s => s < entry :=
          List.max?_mem (fun a b => max_choice a b) hm
        have hmlt : m < entry := by
          have h2 := (List.mem_filter.mp hmem).2
          simpa using h2
        split_ifs with hcond
        · nlinarith
        · exact hmlt
  · show entry < (if resistances ≠ [] then
        let nearest_resistance :=
          ((resistances.filter fun r => r > entry).min?).getD (entry * 1.02)
        if (nearest_resistance - entry) / entry < 0.01 then entry * 1.02
        else nearest_resistance
      else entry + 2 * (if atr_ind.getD 0 = 0 then entry * 0.01 else atr_ind.getD 0))
    by_cases hres : resistances = []
    · rw [if_neg (by simpa using hres)]
      linarith
    · rw [if_pos hres]
      rcases hm : (resistances.filter fun r => r > entry).min? with _ | m
      · dsimp only
        simp only [Option.getD_none]
        split_ifs <;> nlinarith
      · dsimp only
        simp only [Option.getD_some]
        have hmem : m ∈ resistances.filter fun r => r > entry :=
          List.min?_mem (fun a b => min_choice a b) hm
        have hmgt : entry < m := by
          have h2 := (List.mem_filter.mp hmem).2
          simpa using h2
        split_ifs with hcond
        · nlinarith
        · exact hmgt

/-- C6 witness: the three side conditions at entry 100 with a support at
95 and a resistance at 105. -/
theorem determine_stop_loss_side_witness :
    (0 : ℚ) < 100 ∧ 0 ≤ (none : Option ℚ).getD 0 ∧
    (determine_stop_loss .long 100 [95] [105] none < 100 ∧
      (100 : ℚ) < determine_stop_loss .short 100 [95] [105] none ∧
      determine_stop_loss .neutral 100 [95] [105] none = 100) :=
  ⟨by norm_num, by norm_num,
    determine_stop_loss_side 100 [95] [105] none (by norm_num) (by norm_num)⟩

/-- C7: the level detector's resistance list is always sorted ascending
and its support list sorted descending, and every level derived from
genuine local extrema is strictly above (resistance) respectively below
(support) the current price. -/
theorem identify_support_resistance_invariants (high low close : List ℚ)
    (atr : ℚ) (n_levels : Nat) :
    List.Sorted (fun a b => a ≤ b)
      (identify_support_resistance high low close atr n_levels).resistance ∧
    List.Sorted (fun a b => b ≤ a)
      (identify_support_resistance high low close atr n_levels).support ∧
    (∀ p ∈ real_resistance high close.length ((close.getLast?).getD 0) n_levels,
      (close.getLast?).getD 0 < p) ∧
    (∀ p ∈ real_support low close.length ((close.getLast?).getD 0) n_levels,
      p < (close.getLast?).getD 0) := by
  refine ⟨?_, ?_, ?_, ?_⟩
  · unfold identify_support_resistance
    by_cases h : close.length < 30
    · rw [if_pos h]
      exact List.sorted_nil
    · rw [if_neg h]
      exact List.sorted_insertionSort _ _
  · unfold identify_support_resistance
    by_cases h : close.length < 30
    · rw [if_pos h]
      exact List.sorted_nil
    · rw [if_neg h]
      exact List.sorted_insertionSort _ _
  · intro p hp
    unfold real_resistance at hp
    rw [List.mem_map] at hp
    obtain ⟨pr, hpr, rfl⟩ := hp
    have h1 : pr ∈ highs_above high close.length ((close.getLast?).getD 0) :=
      List.take_subset _ _ hpr
    unfold highs_above at h1
    rw [List.mem_insertionSort] at h1
    have h2 := (List.mem_filter.mp h1).2
    simpa using h2
  · intro p hp
    unfold real_support at hp
    rw [List.mem_map] at hp
    obtain ⟨pr, hpr, rfl⟩ := hp
    have h1 : pr ∈ lows_below low close.length ((close.getLast?).getD 0) :=
      List.take_subset _ _ hpr
    unfold lows_below at h1
    rw [List.mem_insertionSort] at h1
    have h2 := (List.mem_filter.mp h1).2
    simpa using h2

/-- C8: for any series shorter than 20 bars, the structure classifier,
trend determiner and volatility analyzer all return their documented
neutral default records with strength (respectively both volatility
values) 0; as total functions they raise nothing. -/
theorem analyzers_default_below_20 (closes : List ℚ) (current : ℚ)
    (ind : IndicatorSet) (adx : ℚ) (h : closes.length < 20) :
    analyze_market_structure closes.length current ind =
      { structure_label := .neutral, strength := 0, description := "" } ∧
    determine_trend closes.length current ind adx =
      { direction := .sideways, strength := 0, description := "" } ∧
    analyze_volatility closes = ⟨0, 0, .normal, ""⟩ := by
  refine ⟨?_, ?_, ?_⟩
  · unfold analyze_market_structure
    rw [if_pos h]
  · unfold determine_trend
    rw [if_pos h]
  · unfold analyze_volatility
    rw [if_pos h]

/-- C8 witness: the three defaults at a concrete 3-bar series. -/
theorem analyzers_default_below_20_witness :
    ([(1 : ℚ), 2, 3].length < 20) ∧
    (analyze_market_structure [(1 : ℚ), 2, 3].length 3 {} =
        { structure_label := .neutral, strength := 0, description := "" } ∧
      determine_trend [(1 : ℚ), 2, 3].length 3 {} 0 =
        { direction := .sideways, strength := 0, description := "" } ∧
      analyze_volatility [(1 : ℚ), 2, 3] = ⟨0, 0, .normal, ""⟩) :=
  ⟨by norm_num, analyzers_default_below_20 [1, 2, 3] 3 {} 0 (by norm_num)⟩

/-- C10: for a series of 20 to 49 bars the indicator set is empty, so the
structure classifier scores 0.4·0 + 0.2·0 + 0.2·50 + 0.2·50 = 20 ≤ 30 and
labels the market bearish, not neutral. -/
theorem structure_bearish_sub50 (n : Nat) (current : ℚ) (ext : TalibOutputs)
    (h1 : 20 ≤ n) (h2 : n < 50) :
    analyze_market_structure n current (calculate_indicators {} n current ext) =
      { structure_label := .bearish, strength := 20,
        description := "看跌结构，价格站在大多数均线下方" } := by
  have hind : calculate_indicators {} n current ext = {} := by
    unfold calculate_indicators
    rw [if_pos h2]
  rw [hind]
  unfold analyze_market_structure
  rw [if_neg (Nat.not_lt.mpr h1)]
  norm_num

/-- C10 witness: the bearish default at a concrete 30-bar length. -/
theorem structure_bearish_sub50_witness :
    (20 ≤ 30 ∧ 30 < 50) ∧
    analyze_market_structure 30 100 (calculate_indicators {} 30 100 {}) =
      { structure_label := .bearish, strength := 20,
        description := "看跌结构，价格站在大多数均线下方" } :=
  ⟨by norm_num, structure_bearish_sub50 30 100 {} (by norm_num) (by norm_num)⟩

theorem lookup_guard_not_mem (f : Nat → ℚ) (n : Nat) :
    ∀ (periods : List Nat) (per : Nat), per ∉ periods →
      List.lookup per
        (periods.filterMap fun q => if q ≤ n then some (q, f q) else none) = none := by
  intro periods
  induction periods with
  | nil => intro per _; rfl
  | cons q rest ih =>
    intro per hper
    have hq : per ≠ q := fun heq => hper (heq ▸ List.mem_cons_self q rest)
    have hrest : per ∉ rest := fun hmem => hper (List.mem_cons_of_mem q hmem)
    by_cases hle : q ≤ n
    · simp only [List.filterMap_cons, if_pos hle, List.lookup,
        beq_eq_false_iff_ne.mpr hq, ih per hrest]
    · simp only [List.filterMap_cons, if_neg hle, ih per hrest]

theorem lookup_guard_mem (f : Nat → ℚ) (n : Nat) :
    ∀ (periods : List Nat) (per : Nat), per ∈ periods →
      ((List.lookup per
        (periods.filterMap fun q => if q ≤ n then some (q, f q) else none)).isSome
        ↔ per ≤ n) := by
  intro periods
  induction periods with
  | nil => intro per hper; cases hper
  | cons q rest ih =>
    intro per hper
    by_cases hq : per = q
    · subst hq
      by_cases hle : per ≤ n
      · simp only [List.filterMap_cons, if_pos hle, List.lookup, beq_self_eq_true]
        simp [hle]
      · by_cases hmem : per ∈ rest
        · simp only [List.filterMap_cons, if_neg hle]
          exact ih per hmem
        · simp only [List.filterMap_cons, if_neg hle,
            lookup_guard_not_mem f n rest per hmem]
          simp [hle]
    · have hmem : per ∈ rest := (List.mem_cons.mp hper).resolve_left hq
      by_cases hle : q ≤ n
      · simp only [List.filterMap_cons, if_pos hle, List.lookup,
          beq_eq_false_iff_ne.mpr hq]
        exact ih per hmem
      · simp only [List.filterMap_cons, if_neg hle]
        exact ih per hmem

/-- C4 counterexample: a 30-bar series satisfies the SMA-5 window
(5 ≤ 30), yet the builder returns no `ma_5` entry — below 50 bars the
whole indicator set is empty, so the families are not computed
independently of each other. -/
theorem calculate_indicators_below50_cex :
    (5 ≤ 30) ∧
    List.lookup 5 (calculate_indicators {} 30 100 {}).ma = none := by
  exact ⟨by norm_num, rfl⟩

/-- C4 (amended): the builder computes nothing at all below 50 bars; from
50 bars on, each family is computed exactly when its own window is
satisfied — in particular `ma_p`/`ema_p` are present iff `p ≤ n`, and all
the other families (whose windows are at most 35) are always present. -/
theorem calculate_indicators_windows (n : Nat) (close_last : ℚ)
    (ext : TalibOutputs) :
    (n < 50 → calculate_indicators {} n close_last ext = {}) ∧
    (50 ≤ n →
      (∀ per ∈ ([5, 10, 20, 50, 100, 200] : List Nat),
        (List.lookup per (calculate_indicators {} n close_last ext).ma).isSome
          ↔ per ≤ n) ∧
      (∀ per ∈ ([5, 10, 20, 50, 100, 200] : List Nat),
        (List.lookup per (calculate_indicators {} n close_last ext).ema).isSome
          ↔ per ≤ n) ∧
      (calculate_indicators {} n close_last ext).rsi.isSome ∧
      (calculate_indicators {} n close_last ext).macd.isSome ∧
      (calculate_indicators {} n close_last ext).macd_signal.isSome ∧
      (calculate_indicators {} n close_last ext).macd_hist.isSome ∧
      (calculate_indicators {} n close_last ext).k.isSome ∧
      (calculate_indicators {} n close_last ext).d.isSome ∧
      (calculate_indicators {} n close_last ext).j.isSome ∧
      (calculate_indicators {} n close_last ext).bb_upper.isSome ∧
      (calculate_indicators {} n close_last ext).bb_middle.isSome ∧
      (calculate_indicators {} n close_last ext).bb_lower.isSome ∧
      (calculate_indicators {} n close_last ext).bb_width.isSome ∧
      (calculate_indicators {} n close_last ext).atr.isSome ∧
      (calculate_indicators {} n close_last ext).atr_percent.isSome ∧
      (calculate_indicators {} n close_last ext).sar.isSome ∧
      (calculate_indicators {} n close_last ext).cci.isSome ∧
      (calculate_indicators {} n close_last ext).obv.isSome ∧
      (calculate_indicators {} n close_last ext).obv_change.isSome) := by
  constructor
  · intro h
    unfold calculate_indicators
    rw [if_pos h]
  · intro h
    have hn : ¬ n < 50 := Nat.not_lt.mpr h
    unfold calculate_indicators
    rw [if_neg hn]
    refine ⟨?_, ?_, ?_, ?_, ?_, ?_, ?_, ?_, ?_, ?_, ?_, ?_, ?_, ?_, ?_, ?_, ?_, ?_, ?_⟩ <;>
      first
        | (intro per hper
           exact lookup_guard_mem _ n _ per hper)
        | simp [show (14 : Nat) ≤ n by omega, show (35 : Nat) ≤ n by omega,
            show (12 : Nat) ≤ n by omega, show (20 : Nat) ≤ n by omega,
            show (15 : Nat) ≤ n by omega, show (2 : Nat) ≤ n by omega]

/-- C4 witness: the amended behaviour at 30 bars (everything absent) and
at 120 bars (RSI present, `ma_100` present, `ma_200` absent). -/
theorem calculate_indicators_windows_witness :
    (calculate_indicators {} 30 100 {} = {}) ∧
    (calculate_indicators {} 120 100 {}).rsi.isSome ∧
    ((List.lookup 100 (calculate_indicators {} 120 100 {}).ma).isSome ↔ 100 ≤ 120) ∧
    ((List.lookup 200 (calculate_indicators {} 120 100 {}).ma).isSome ↔ 200 ≤ 120) :=
  ⟨(calculate_indicators_windows 30 100 {}).1 (by norm_num),
    ((calculate_indicators_windows 120 100 {}).2 (by norm_num)).2.2.1,
    ((calculate_indicators_windows 120 100 {}).2 (by norm_num)).1 100 (by norm_num),
    ((calculate_indicators_windows 120 100 {}).2 (by norm_num)).1 200 (by norm_num)⟩

end CryptoBot
